import Mathlib

/-!
Shallow embedding of the ContentModerationDAO system
(src/src/contracts/ContentModerationDAO.sol, together with the
GovernanceToken and ReputationSystem contracts bundled with the test file
src/src/contracts/test/DAO.test.js).

Modelling conventions:
* Ethereum addresses are modelled as `Nat`. Solidity `mapping`s are modelled
  as association lists with the zero-initialised default value that Solidity
  gives an unwritten slot (`aget` below); in particular an uninitialised
  `Proposal` struct has `status = Active` because `Active` is enum value 0,
  exactly as in Solidity.
* `uint256` arithmetic is modelled over unbounded `Nat`. Solidity 0.8
  reverts on overflow, but every quantity handled by these functions is
  bounded by the token supply (`≤ MAX_SUPPLY = 10^27`) or by a vote count
  whose quadratic cost must fit under the balance check, all far below
  `2^256`, so wrap-around is never observable on the inputs considered
  here. Guarded subtractions in the source (`score -= 5` behind
  `score > 5`, `lockedTokens -= amount` behind its `require`) cannot
  underflow; `Nat` truncated subtraction agrees with them.
* A reverting call is modelled as `Except.error msg` carrying the revert
  string of the corresponding `require`; a revert discards all state
  changes, so an `.error` result means the pre-state is unchanged.
* `block.timestamp` is passed explicitly as a `now : Nat` argument, and
  `msg.sender` as an explicit `sender : Addr` argument.  The external
  calls the DAO contract makes (`governanceToken.lockTokens`,
  `governanceToken.unlockTokens`) therefore run with the DAO contract
  address itself as `msg.sender`, exactly as in the EVM.
* Contract events are accumulated in an `events` list on the combined
  state; the `nonReentrant` guards have no observable effect in this
  sequential model and are not modelled.
-/

/-- Ethereum account addresses, modelled as naturals. -/
abbrev Addr := Nat

/-- `10**18`, the token minor-unit scale used by the quadratic cost formula. -/
def UNIT : Nat := 10 ^ 18

/-- Lookup in an association list, returning the Solidity default value `d`
for an absent key (Solidity mappings read zero-initialised storage). -/
def aget {α : Type} (d : α) (m : List (Addr × α)) (k : Addr) : α :=
  match m with
  | [] => d
  | (k', v) :: rest => if k' = k then v else aget d rest k

/-- Write a key in an association list (replace the first binding, or append). -/
def aset {α : Type} (m : List (Addr × α)) (k : Addr) (v : α) : List (Addr × α) :=
  match m with
  | [] => [(k, v)]
  | (k', v') :: rest => if k' = k then (k, v) :: rest else (k', v') :: aset rest k v

/-- GovernanceToken.sol storage: ERC20 balances, the `lockedTokens` mapping
and the ERC20 total supply. -/
structure TokenState where
  balances : List (Addr × Nat)
  lockedTokens : List (Addr × Nat)
  totalSupply : Nat
  deriving DecidableEq, Repr

/-- ReputationSystem.sol `UserReputation` struct. -/
structure UserReputation where
  score : Nat
  totalVotes : Nat
  majorityVotes : Nat
  consecutiveCorrect : Nat
  lastUpdateTime : Nat
  deriving DecidableEq, Repr

/-- Zero-initialised `UserReputation` (Solidity default). -/
def UserReputation.zero : UserReputation := ⟨0, 0, 0, 0, 0⟩

/-- ReputationSystem.sol storage: the `reputations` mapping and the
`Ownable` owner slot (`recordVote` is `onlyOwner`). -/
structure RepState where
  reputations : List (Addr × UserReputation)
  owner : Addr
  deriving DecidableEq, Repr

/-- `enum ProposalStatus { Active, Executed, Rejected, Expired }` —
`Active` is enum value 0, hence the default of an unwritten storage slot. -/
inductive PStatus
  | Active | Executed | Rejected | Expired
  deriving DecidableEq, Repr

/-- `enum ProposalType { APPROVE, REMOVE, POLICY }`. -/
inductive PType
  | APPROVE | REMOVE | POLICY
  deriving DecidableEq, Repr

/-- ContentModerationDAO.sol `Vote` struct. -/
structure VoteRec where
  hasVoted : Bool
  approve : Bool
  voteCount : Nat
  weightedPower : Nat
  tokensCost : Nat
  deriving DecidableEq, Repr

/-- Zero-initialised `Vote` struct (Solidity default). -/
def VoteRec.zero : VoteRec := ⟨false, false, 0, 0, 0⟩

/-- ContentModerationDAO.sol `Proposal` struct. -/
structure Proposal where
  id : Nat
  proposer : Addr
  ptype : PType
  title : String
  description : String
  contentUrl : String
  contentType : String
  createdAt : Nat
  votingDeadline : Nat
  approveVotes : Nat
  rejectVotes : Nat
  status : PStatus
  executed : Bool
  votes : List (Addr × VoteRec)
  voters : List Addr
  deriving DecidableEq, Repr

/-- Zero-initialised `Proposal` struct; note `status = Active` (enum 0). -/
def Proposal.zero : Proposal :=
  { id := 0, proposer := 0, ptype := .APPROVE, title := "", description := "",
    contentUrl := "", contentType := "", createdAt := 0, votingDeadline := 0,
    approveVotes := 0, rejectVotes := 0, status := .Active, executed := false,
    votes := [], voters := [] }

/-- ContentModerationDAO.sol storage (`proposals`, `proposalCount`) plus the
DAO contract's own address, which is the `msg.sender` of the external calls
it makes to the token contract. -/
structure DaoState where
  proposals : List (Nat × Proposal)
  proposalCount : Nat
  daoAddr : Addr
  deriving DecidableEq, Repr

/-- Contract events (the subset emitted by the operations modelled here). -/
inductive Ev
  | ProposalCreated (id : Nat) (proposer : Addr) (deadline : Nat)
  | VoteCast (id : Nat) (voter : Addr) (approve : Bool)
      (voteCount weightedPower tokensCost : Nat)
  | ProposalExecuted (id : Nat) (approved : Bool)
  | ProposalExpired (id : Nat)
  | TokensLocked (user : Addr) (amount : Nat)
  | TokensUnlocked (user : Addr) (amount : Nat)
  | ReputationUpdated (user : Addr) (newScore multiplier : Nat)
  | MajorityVoteRecorded (user : Addr) (votedWithMajority : Bool)
  deriving DecidableEq, Repr

/-- Combined state of the three deployed contracts plus the event log. -/
structure Sys where
  tok : TokenState
  rep : RepState
  dao : DaoState
  events : List Ev
  deriving DecidableEq, Repr

/-- ERC20 `balanceOf`. -/
def balanceOf (s : Sys) (a : Addr) : Nat := aget 0 s.tok.balances a

/-- GovernanceToken `lockedTokens` mapping read. -/
def lockedOf (s : Sys) (a : Addr) : Nat := aget 0 s.tok.lockedTokens a

/-- GovernanceToken.availableBalance: `balanceOf(account) - lockedTokens[account]`. -/
def availableBalance (s : Sys) (a : Addr) : Nat := balanceOf s a - lockedOf s a

/-- `proposals[pid]` storage read (zero-initialised default for unknown ids). -/
def proposalOf (s : Sys) (pid : Nat) : Proposal :=
  aget Proposal.zero s.dao.proposals pid

/-- `proposals[pid].votes[a]` storage read. -/
def voteRecOf (s : Sys) (pid : Nat) (a : Addr) : VoteRec :=
  aget VoteRec.zero (proposalOf s pid).votes a

/-- `reputations[a]` storage read. -/
def repOf (s : Sys) (a : Addr) : UserReputation := aget UserReputation.zero s.rep.reputations a

/-- GovernanceToken.lockTokens (GovernanceToken.sol):
`require(balanceOf(msg.sender) - lockedTokens[msg.sender] >= amount)`,
then `lockedTokens[msg.sender] += amount`. -/
def lockTokens (sender : Addr) (amount : Nat) (s : Sys) : Except String Sys :=
  if balanceOf s sender - lockedOf s sender ≥ amount then
    .ok { s with
          tok := { s.tok with
                   lockedTokens := aset s.tok.lockedTokens sender (lockedOf s sender + amount) },
          events := s.events ++ [.TokensLocked sender amount] }
  else .error "Insufficient unlocked balance"

/-- GovernanceToken.unlockTokens (GovernanceToken.sol):
`require(lockedTokens[msg.sender] >= amount)`, then
`lockedTokens[msg.sender] -= amount`. -/
def unlockTokens (sender : Addr) (amount : Nat) (s : Sys) : Except String Sys :=
  if lockedOf s sender ≥ amount then
    .ok { s with
          tok := { s.tok with
                   lockedTokens := aset s.tok.lockedTokens sender (lockedOf s sender - amount) },
          events := s.events ++ [.TokensUnlocked sender amount] }
  else .error "Insufficient locked tokens"

/-- The pure per-record update performed by ReputationSystem.recordVote:
`totalVotes++`; on a majority vote also `majorityVotes++`,
`consecutiveCorrect++`, `score += 10 + consecutiveCorrect * CONSECUTIVE_BONUS`
(with the already incremented streak, `CONSECUTIVE_BONUS = 10`) capped at
`REPUTATION_THRESHOLD = 1000`; on a minority vote `consecutiveCorrect = 0`
and `score` drops by 5, floored at 0. -/
def repUpdate (maj : Bool) (now : Nat) (r : UserReputation) : UserReputation :=
  if maj then
    let consec := r.consecutiveCorrect + 1
    let gain := 10 + consec * 10
    let sc := r.score + gain
    { r with totalVotes := r.totalVotes + 1,
             majorityVotes := r.majorityVotes + 1,
             consecutiveCorrect := consec,
             score := if sc > 1000 then 1000 else sc,
             lastUpdateTime := now }
  else
    { r with totalVotes := r.totalVotes + 1,
             consecutiveCorrect := 0,
             score := if r.score > 5 then r.score - 5 else 0,
             lastUpdateTime := now }

/-- ReputationSystem.getVotingMultiplier as a function of the stored score:
`score == 0 → BASE_MULTIPLIER (100)`, else
`BASE_MULTIPLIER + score * 100 / REPUTATION_THRESHOLD` capped at
`MAX_MULTIPLIER (200)`. -/
def multiplierOfScore (sc : Nat) : Nat :=
  if sc = 0 then 100
  else
    let m := 100 + sc * 100 / 1000
    if m > 200 then 200 else m

/-- ReputationSystem.getVotingMultiplier (ReputationSystem.sol). -/
def getVotingMultiplier (s : Sys) (user : Addr) : Nat :=
  multiplierOfScore (repOf s user).score

/-- ReputationSystem.recordVote (ReputationSystem.sol): `onlyOwner`,
applies `repUpdate`, stamps `lastUpdateTime`, and emits
`ReputationUpdated` (with the post-update multiplier) and
`MajorityVoteRecorded`. -/
def recordVote (sender user : Addr) (maj : Bool) (now : Nat) (s : Sys) :
    Except String Sys :=
  if sender = s.rep.owner then
    let r := repUpdate maj now (repOf s user)
    .ok { s with
          rep := { s.rep with reputations := aset s.rep.reputations user r },
          events := s.events ++
            [.ReputationUpdated user r.score (multiplierOfScore r.score),
             .MajorityVoteRecorded user maj] }
  else .error "OwnableUnauthorizedAccount"

/-- `VOTING_PERIOD = 7 days`. -/
def VOTING_PERIOD : Nat := 7 * 24 * 60 * 60

/-- `QUORUM_PERCENTAGE = 20`. -/
def QUORUM_PERCENTAGE : Nat := 20

/-- `APPROVAL_THRESHOLD = 50`. -/
def APPROVAL_THRESHOLD : Nat := 50

/-- `PROPOSAL_THRESHOLD = 1000 * 10**18`. -/
def PROPOSAL_THRESHOLD : Nat := 1000 * UNIT

/-- ContentModerationDAO.createProposal (ContentModerationDAO.sol lines
95–132).  Note that the threshold `require` reads
`governanceToken.balanceOf(msg.sender)` — the full ERC20 balance, locked
tokens included — not `availableBalance`. -/
def createProposal (now : Nat) (sender : Addr) (pt : PType)
    (title description contentUrl contentType : String) (s : Sys) :
    Except String Sys :=
  if balanceOf s sender ≥ PROPOSAL_THRESHOLD then
    let pid := s.dao.proposalCount + 1
    let p : Proposal :=
      { Proposal.zero with
        id := pid, proposer := sender, ptype := pt, title := title,
        description := description, contentUrl := contentUrl,
        contentType := contentType, createdAt := now,
        votingDeadline := now + VOTING_PERIOD, status := .Active,
        executed := false }
    .ok { s with
          dao := { s.dao with
                     proposals := aset s.dao.proposals pid p,
                     proposalCount := pid },
          events := s.events ++ [.ProposalCreated pid sender (now + VOTING_PERIOD)] }
  else .error "Insufficient tokens to create proposal"

/-- ContentModerationDAO.vote (ContentModerationDAO.sol lines 140–188).
The cost `require` reads `governanceToken.balanceOf(msg.sender)` (full
balance); `governanceToken.lockTokens(tokensCost)` is an external call, so
inside `lockTokens` the `msg.sender` is the DAO contract address itself. -/
def vote (now : Nat) (sender : Addr) (pid : Nat) (approve : Bool)
    (voteCount : Nat) (s : Sys) : Except String Sys :=
  if pid > 0 ∧ pid ≤ s.dao.proposalCount then
    let p := proposalOf s pid
    if p.status = .Active then
      if now < p.votingDeadline then
        if (aget VoteRec.zero p.votes sender).hasVoted = true then
          .error "Already voted"
        else
          if voteCount > 0 then
            let tokensCost := voteCount * voteCount * UNIT
            if balanceOf s sender ≥ tokensCost then
              let multiplier := getVotingMultiplier s sender
              let weightedPower := voteCount * multiplier / 100
              match lockTokens s.dao.daoAddr tokensCost s with
              | .error e => .error e
              | .ok s1 =>
                let vr : VoteRec :=
                  ⟨true, approve, voteCount, weightedPower, tokensCost⟩
                let p1 :=
                  { p with
                    votes := aset p.votes sender vr,
                    voters := p.voters ++ [sender],
                    approveVotes :=
                      if approve then p.approveVotes + weightedPower
                      else p.approveVotes,
                    rejectVotes :=
                      if approve then p.rejectVotes
                      else p.rejectVotes + weightedPower }
                .ok { s1 with
                      dao := { s1.dao with proposals := aset s1.dao.proposals pid p1 },
                      events := s1.events ++
                        [.VoteCast pid sender approve voteCount weightedPower tokensCost] }
            else .error "Insufficient tokens for vote cost"
          else .error "Vote count must be positive"
      else .error "Voting period ended"
    else .error "Proposal not active"
  else .error "Invalid proposal ID"

/-- The per-voter loop of ContentModerationDAO.executeProposal (lines
227–237): for each voter, `governanceToken.unlockTokens(tokensCost)`
(again an external call with the DAO contract as `msg.sender`) followed by
`reputationSystem.recordVote(voter, approve == majorityApproved)`. -/
def voterPass (dao : Addr) (now : Nat) (maj : Bool)
    (votes : List (Addr × VoteRec)) (l : List Addr) (s : Sys) :
    Except String Sys :=
  match l with
  | [] => .ok s
  | v :: rest =>
    match unlockTokens dao (aget VoteRec.zero votes v).tokensCost s with
    | .error e => .error e
    | .ok s1 =>
      match recordVote dao v ((aget VoteRec.zero votes v).approve == maj) now s1 with
      | .error e => .error e
      | .ok s2 => voterPass dao now maj votes rest s2

/-- Tail of executeProposal after the status decision: write the resolved
status and `executed = true`, emit any `ProposalExpired` event, run the
per-voter unlock/reputation loop (unconditionally — it is outside the
quorum branch in the source), and emit `ProposalExecuted`. -/
def execFinish (now pid : Nat) (p : Proposal) (st : PStatus) (approved : Bool)
    (preEvents : List Ev) (s : Sys) : Except String Sys :=
  let p1 := { p with status := st, executed := true }
  let s1 := { s with
              dao := { s.dao with proposals := aset s.dao.proposals pid p1 },
              events := s.events ++ preEvents }
  let majorityApproved := p.approveVotes > p.rejectVotes
  match voterPass s.dao.daoAddr now majorityApproved p1.votes p1.voters s1 with
  | .error e => .error e
  | .ok s2 => .ok { s2 with events := s2.events ++ [.ProposalExecuted pid approved] }

/-- ContentModerationDAO.executeProposal (ContentModerationDAO.sol lines
194–240).  Guard order is exactly the source's: id range, `status == Active`,
deadline reached, `!executed`.  In the quorum branch the source divides by
`totalVotes`; Solidity 0.8 panics on a zero divisor (reachable only when
`quorumRequired = 0`), modelled as an error. -/
def executeProposal (now : Nat) (pid : Nat) (s : Sys) : Except String Sys :=
  if pid > 0 ∧ pid ≤ s.dao.proposalCount then
    let p := proposalOf s pid
    if p.status = .Active then
      if now ≥ p.votingDeadline then
        if p.executed = true then
          .error "Proposal already executed"
        else
          let totalVotes := p.approveVotes + p.rejectVotes
          let quorumRequired := s.tok.totalSupply * QUORUM_PERCENTAGE / 100
          if totalVotes ≥ quorumRequired then
            if totalVotes = 0 then .error "panic: division by zero"
            else
              let approvalPercentage := p.approveVotes * 100 / totalVotes
              let approved := approvalPercentage ≥ APPROVAL_THRESHOLD
              execFinish now pid p (if approved then .Executed else .Rejected)
                approved [] s
          else
            execFinish now pid p .Expired false [.ProposalExpired pid] s
      else .error "Voting period not ended"
    else .error "Proposal not active"
  else .error "Invalid proposal ID"

/-- ContentModerationDAO.calculateVoteCost (lines 319–321):
`voteCount * voteCount * 10**18`. -/
def calculateVoteCost (voteCount : Nat) : Nat := voteCount * voteCount * UNIT

/-- Decidable equality of call results, for evaluating concrete runs. -/
instance exceptDecEq {e a : Type} [DecidableEq e] [DecidableEq a] :
    DecidableEq (Except e a) := fun x y =>
  match x, y with
  | .error u, .error v =>
    if h : u = v then .isTrue (congrArg Except.error h)
    else .isFalse (fun hc => h (Except.error.inj hc))
  | .ok u, .ok v =>
    if h : u = v then .isTrue (congrArg Except.ok h)
    else .isFalse (fun hc => h (Except.ok.inj hc))
  | .error _, .ok _ => .isFalse (fun hc => Except.noConfusion hc)
  | .ok _, .error _ => .isFalse (fun hc => Except.noConfusion hc)

/-- Extract the success state of a call, with an inert dummy for the error
case (used only to name the post-state of calls proved successful). -/
def exOk (e : Except String Sys) : Sys :=
  match e with
  | .ok s => s
  | .error _ => { tok := ⟨[], [], 0⟩, rep := ⟨[], 0⟩, dao := ⟨[], 0, 0⟩,
                  events := [] }

/-- Concrete deployment-shaped state: the DAO contract lives at address 100
and owns the ReputationSystem (as the deployment script arranges). -/
def mkSys (bal lock : List (Addr × Nat)) (supply : Nat)
    (props : List (Nat × Proposal)) (cnt : Nat)
    (reps : List (Addr × UserReputation)) : Sys :=
  { tok := ⟨bal, lock, supply⟩, rep := ⟨reps, 100⟩,
    dao := ⟨props, cnt, 100⟩, events := [] }

/-- Concrete active proposal with the given vote ledger and tallies. -/
def mkActive (pid deadline : Nat) (votes : List (Addr × VoteRec))
    (voters : List Addr) (av rv : Nat) : Proposal :=
  { Proposal.zero with
    id := pid, proposer := 1, votingDeadline := deadline, votes := votes,
    voters := voters, approveVotes := av, rejectVotes := rv }

/-! ### Concrete scenario states

Account 1 (and 2) are user accounts; address 100 is the deployed DAO
contract, which also owns the ReputationSystem (as the deployment script
arranges). -/

/-- Deployment-shaped start state: proposer/voter 1 holds 2000 tokens and
the DAO contract itself holds 1000 tokens (so that its `lockTokens` call
can succeed); total supply 3000 tokens, so the quorum requirement of
20 percent is 600 token units — far above a weighted vote of 1. -/
def expiredRunStart : Sys :=
  mkSys [(1, 2000 * UNIT), (100, 1000 * UNIT)] [] (3000 * UNIT) [] 0 []

/-- Create a proposal at time 0, vote 1 approve vote at time 0, then
execute at the 7-day deadline: the quorum fails, so the proposal expires. -/
def expiredRunChain : Except String Sys :=
  ((createProposal 0 1 .APPROVE "t" "t" "t" "t" expiredRunStart).bind
    (vote 0 1 1 true 1)).bind (executeProposal 604800 1)

/-- Small post-vote state for exercising the Expired branch: supply 100 so
the quorum requirement is 20, one recorded approve vote of weight 1 and
cost 3, with 3 token units locked on the DAO contract address. -/
def smallExpiredState : Sys :=
  mkSys [] [(100, 3)] 100
    [(1, mkActive 1 0 [(1, ⟨true, true, 1, 1, 3⟩)] [1] 1 0)] 1 []

/-- Small post-vote state with an exact weighted tie (1 approve vs 1
reject), supply 10 so the quorum requirement of 2 is exactly met. -/
def tieState : Sys :=
  mkSys [] [(100, 7)] 10
    [(1, mkActive 1 0 [(1, ⟨true, true, 1, 1, 3⟩), (2, ⟨true, false, 1, 1, 4⟩)]
        [1, 2] 1 1)] 1 []

/-- Deployment-shaped state for the voting scenario of the spec: voter 1
holds exactly 1000 tokens (all unlocked, so the available balance is also
1000), has no reputation (multiplier 100), and proposal 1 is active with
deadline 604800.  The DAO contract holds no tokens, as after deployment. -/
def voteScenarioState : Sys :=
  mkSys [(1, 1000 * UNIT)] [] (100000000 * UNIT)
    [(1, mkActive 1 604800 [] [] 0 0)] 1 []

/-- Variant of `voteScenarioState` in which the DAO contract address has
been funded with 1000000 tokens, so that its misdirected `lockTokens`
call succeeds and the vote goes through. -/
def voteScenarioFunded : Sys :=
  mkSys [(1, 1000 * UNIT), (100, 1000000 * UNIT)] [] (100000000 * UNIT)
    [(1, mkActive 1 604800 [] [] 0 0)] 1 []

/-- Account 1 holds 1000 tokens of which all 1000 are locked: its full
balance meets PROPOSAL_THRESHOLD but its available balance is 0. -/
def fullyLockedProposer : Sys :=
  mkSys [(1, 1000 * UNIT)] [(1, 1000 * UNIT)] (100000000 * UNIT) [] 0 []

/-- Account 1 holds 25 tokens, all 25 locked (available balance 0), and
proposal 1 is active: a 5-vote ballot costs exactly 25 tokens. -/
def fullyLockedVoter : Sys :=
  mkSys [(1, 25 * UNIT)] [(1, 25 * UNIT)] (100000000 * UNIT)
    [(1, mkActive 1 604800 [] [] 0 0)] 1 []

/-- Account 1 holds 3 tokens (unlocked) and proposal 1 is active: a 2-vote
ballot costs 4 tokens, more than the balance. -/
def poorVoter : Sys :=
  mkSys [(1, 3 * UNIT)] [] (100000000 * UNIT)
    [(1, mkActive 1 604800 [] [] 0 0)] 1 []

/-- A proposal already resolved as Expired (`executed = true`). -/
def resolvedState : Sys :=
  mkSys [] [] (100000000 * UNIT)
    [(1, { mkActive 1 604800 [] [] 0 0 with status := .Expired, executed := true })]
    1 []

/-- Start state for the double-vote run: proposer 1, voter 2, and a funded
DAO contract so the first vote succeeds. -/
def doubleVoteStart : Sys :=
  mkSys [(1, 2000 * UNIT), (2, 1000 * UNIT), (100, 1000 * UNIT)] []
    (100000000 * UNIT) [] 0 []

/-- Create a proposal at time 0 and let account 2 cast 5 approve votes. -/
def doubleVoteMid : Except String Sys :=
  (createProposal 0 1 .APPROVE "t" "t" "t" "t" doubleVoteStart).bind
    (vote 0 2 1 true 5)

/-- A state in which account 2 has already voted on the active proposal 1
(one approve vote of weight 1 and cost `UNIT`, deadline 604800). -/
def alreadyVotedState : Sys :=
  mkSys [(2, 100 * UNIT)] [(100, UNIT)] (100000000 * UNIT)
    [(1, mkActive 1 604800 [(2, ⟨true, true, 1, 1, UNIT⟩)] [2] 1 0)] 1 []

/-- Create at time 0 (no votes at all) and execute at the deadline: with
zero votes the quorum fails and the proposal resolves as Expired. -/
def resolveNoVotesChain : Except String Sys :=
  (createProposal 0 1 .APPROVE "t" "t" "t" "t" expiredRunStart).bind
    (executeProposal 604800 1)

/-! ### Lemmas about association-list maps -/

theorem aget_aset_self {α : Type} (d : α) (m : List (Addr × α)) (k : Addr) (v : α) :
    aget d (aset m k v) k = v := by
  induction m with
  | nil => simp [aget, aset]
  | cons hd tl ih =>
    obtain ⟨k', v'⟩ := hd
    by_cases h : k' = k <;> simp [aget, aset, h, ih]

theorem aget_aset_ne {α : Type} (d : α) (m : List (Addr × α)) (k k' : Addr) (v : α)
    (h : k ≠ k') : aget d (aset m k v) k' = aget d m k' := by
  induction m with
  | nil => simp [aget, aset, h]
  | cons hd tl ih =>
    obtain ⟨k0, v0⟩ := hd
    by_cases h0 : k0 = k
    · subst h0
      simp [aget, aset, h]
    · by_cases h1 : k0 = k'
      · subst h1
        simp [aget, aset, h0, Ne.symm h]
      · simp [aget, aset, h0, h1, ih]

/-! ### Inversion lemmas for the primitive operations -/

theorem lockTokens_ok_inv {d : Addr} {amt : Nat} {s s1 : Sys}
    (h : lockTokens d amt s = .ok s1) :
    s1.rep = s.rep ∧ s1.dao = s.dao ∧
    s1.tok.lockedTokens = aset s.tok.lockedTokens d (lockedOf s d + amt) ∧
    s1.tok.balances = s.tok.balances ∧
    s1.events = s.events ++ [.TokensLocked d amt] := by
  unfold lockTokens at h
  split at h
  · cases h
    exact ⟨rfl, rfl, rfl, rfl, rfl⟩
  · cases h

theorem unlockTokens_ok_inv {d : Addr} {amt : Nat} {s s1 : Sys}
    (h : unlockTokens d amt s = .ok s1) :
    s1.rep = s.rep ∧ s1.dao = s.dao ∧
    s1.tok.lockedTokens = aset s.tok.lockedTokens d (lockedOf s d - amt) ∧
    s1.tok.balances = s.tok.balances ∧
    s1.events = s.events ++ [.TokensUnlocked d amt] := by
  unfold unlockTokens at h
  split at h
  · cases h
    exact ⟨rfl, rfl, rfl, rfl, rfl⟩
  · cases h

theorem recordVote_ok_inv {d u : Addr} {maj : Bool} {now : Nat} {s s2 : Sys}
    (h : recordVote d u maj now s = .ok s2) :
    s2.tok = s.tok ∧ s2.dao = s.dao ∧
    s2.rep.owner = s.rep.owner ∧
    s2.rep.reputations = aset s.rep.reputations u (repUpdate maj now (repOf s u)) ∧
    s2.events = s.events ++
      [.ReputationUpdated u (repUpdate maj now (repOf s u)).score
         (multiplierOfScore (repUpdate maj now (repOf s u)).score),
       .MajorityVoteRecorded u maj] := by
  unfold recordVote at h
  split at h
  · cases h
    exact ⟨rfl, rfl, rfl, rfl, rfl⟩
  · cases h

/-! ### Behaviour of the per-voter loop of executeProposal -/

theorem voterPass_ok_dao {d : Addr} {now : Nat} {maj : Bool}
    {votes : List (Addr × VoteRec)} {l : List Addr} {s s' : Sys}
    (h : voterPass d now maj votes l s = .ok s') : s'.dao = s.dao := by
  induction l generalizing s with
  | nil =>
    unfold voterPass at h
    cases h
    rfl
  | cons v rest ih =>
    unfold voterPass at h
    split at h
    · cases h
    · rename_i s1 hu
      split at h
      · cases h
      · rename_i s2 hr
        calc s'.dao = s2.dao := ih h
          _ = s1.dao := (recordVote_ok_inv hr).2.1
          _ = s.dao := (unlockTokens_ok_inv hu).2.1

theorem voterPass_ok_events {d : Addr} {now : Nat} {maj : Bool}
    {votes : List (Addr × VoteRec)} {l : List Addr} {s s' : Sys}
    (h : voterPass d now maj votes l s = .ok s') {e : Ev} (he : e ∈ s.events) :
    e ∈ s'.events := by
  induction l generalizing s with
  | nil =>
    unfold voterPass at h
    cases h
    exact he
  | cons v rest ih =>
    unfold voterPass at h
    split at h
    · cases h
    · rename_i s1 hu
      split at h
      · cases h
      · rename_i s2 hr
        refine ih h ?_
        rw [(recordVote_ok_inv hr).2.2.2.2, (unlockTokens_ok_inv hu).2.2.2.2]
        simp [he]

theorem voterPass_ok_rep_notmem {d : Addr} {now : Nat} {maj : Bool}
    {votes : List (Addr × VoteRec)} {l : List Addr} {s s' : Sys} {a : Addr}
    (h : voterPass d now maj votes l s = .ok s') (ha : a ∉ l) :
    repOf s' a = repOf s a := by
  induction l generalizing s with
  | nil =>
    unfold voterPass at h
    cases h
    rfl
  | cons v rest ih =>
    unfold voterPass at h
    split at h
    · cases h
    · rename_i s1 hu
      split at h
      · cases h
      · rename_i s2 hr
        have hva : v ≠ a := fun hv => ha (hv ▸ List.mem_cons_self v rest)
        have harest : a ∉ rest := fun hr' => ha (List.mem_cons_of_mem v hr')
        have h2 : repOf s2 a = repOf s a := by
          unfold repOf
          rw [(recordVote_ok_inv hr).2.2.2.1, aget_aset_ne _ _ _ _ _ hva,
            (unlockTokens_ok_inv hu).1]
        rw [ih h harest, h2]

/-- If the per-voter loop completes and `a` occurs exactly once in the voter
list, then `a`'s reputation has received exactly one `recordVote` update
with flag `votes[a].approve == majorityApproved`, and the matching
`TokensUnlocked`/`MajorityVoteRecorded` events are in the log. -/
theorem voterPass_ok_rep_once {d : Addr} {now : Nat} {maj : Bool}
    {votes : List (Addr × VoteRec)} {l : List Addr} {s s' : Sys} {a : Addr}
    (h : voterPass d now maj votes l s = .ok s') (hcnt : l.count a = 1) :
    repOf s' a =
      repUpdate ((aget VoteRec.zero votes a).approve == maj) now (repOf s a)
    ∧ Ev.TokensUnlocked d (aget VoteRec.zero votes a).tokensCost ∈ s'.events
    ∧ Ev.MajorityVoteRecorded a ((aget VoteRec.zero votes a).approve == maj)
        ∈ s'.events := by
  induction l generalizing s with
  | nil => simp [List.count_nil] at hcnt
  | cons v rest ih =>
    unfold voterPass at h
    split at h
    · cases h
    · rename_i s1 hu
      split at h
      · cases h
      · rename_i s2 hr
        by_cases hva : v = a
        · subst hva
          have hrest : v ∉ rest := by
            rw [List.count_cons_self] at hcnt
            exact List.count_eq_zero.mp (by omega)
          have hrep2 : repOf s2 v = repUpdate ((aget VoteRec.zero votes v).approve == maj) now (repOf s v) := by
            unfold repOf
            rw [(recordVote_ok_inv hr).2.2.2.1, aget_aset_self]
            unfold repOf
            rw [(unlockTokens_ok_inv hu).1]
          have hev2 : Ev.TokensUnlocked d (aget VoteRec.zero votes v).tokensCost ∈ s2.events
              ∧ Ev.MajorityVoteRecorded v ((aget VoteRec.zero votes v).approve == maj) ∈ s2.events := by
            rw [(recordVote_ok_inv hr).2.2.2.2, (unlockTokens_ok_inv hu).2.2.2.2]
            simp
          exact ⟨by rw [voterPass_ok_rep_notmem h hrest, hrep2],
            voterPass_ok_events h hev2.1, voterPass_ok_events h hev2.2⟩
        · have hcnt' : rest.count a = 1 := by
            rw [List.count_cons_of_ne (fun hh => hva hh.symm)] at hcnt
            exact hcnt
          have h2 : repOf s2 a = repOf s a := by
            unfold repOf
            rw [(recordVote_ok_inv hr).2.2.2.1, aget_aset_ne _ _ _ _ _ hva,
              (unlockTokens_ok_inv hu).1]
          obtain ⟨hr1, hr2, hr3⟩ := ih h hcnt'
          exact ⟨by rw [hr1, h2], hr2, hr3⟩

/-- If `execFinish` succeeds, the proposal gets the requested terminal
status with `executed = true`, and every voter occurring exactly once in
the voter list receives exactly one reputation update with flag
`votes[a].approve == (approveVotes > rejectVotes)`, together with the
unlock and majority events. -/
theorem execFinish_ok {now pid : Nat} {p : Proposal} {st : PStatus}
    {approved : Bool} {pre : List Ev} {s s' : Sys}
    (h : execFinish now pid p st approved pre s = .ok s') :
    (proposalOf s' pid).status = st ∧ (proposalOf s' pid).executed = true ∧
    ∀ a : Addr, p.voters.count a = 1 →
      repOf s' a =
        repUpdate ((aget VoteRec.zero p.votes a).approve ==
          decide (p.approveVotes > p.rejectVotes)) now (repOf s a)
      ∧ Ev.TokensUnlocked s.dao.daoAddr (aget VoteRec.zero p.votes a).tokensCost ∈ s'.events
      ∧ Ev.MajorityVoteRecorded a ((aget VoteRec.zero p.votes a).approve ==
          decide (p.approveVotes > p.rejectVotes)) ∈ s'.events := by
  unfold execFinish at h
  dsimp only at h
  split at h
  · cases h
  · rename_i s2 hpass
    cases h
    have hdao : s2.dao.proposals = aset s.dao.proposals pid
        { p with status := st, executed := true } :=
      congrArg DaoState.proposals (voterPass_ok_dao hpass)
    constructor
    · show (aget Proposal.zero s2.dao.proposals pid).status = st
      rw [hdao, aget_aset_self]
    constructor
    · show (aget Proposal.zero s2.dao.proposals pid).executed = true
      rw [hdao, aget_aset_self]
    · intro a hcnt
      obtain ⟨h1, h2, h3⟩ := voterPass_ok_rep_once hpass hcnt
      refine ⟨?_, by simp [h2], by simp [h3]⟩
      rw [show repOf { s2 with events := s2.events ++ [Ev.ProposalExecuted pid approved] } a = repOf s2 a from rfl, h1]
      rfl

/-! ### Reputation arithmetic -/

/-- Closed form of a majority `recordVote` update: the cap
`if score > 1000 then 1000` is exactly `min _ 1000`, and the bonus uses the
already incremented streak. -/
theorem repUpdate_true (now : Nat) (r : UserReputation) :
    repUpdate true now r =
      ⟨min (r.score + (10 + (r.consecutiveCorrect + 1) * 10)) 1000,
       r.totalVotes + 1, r.majorityVotes + 1, r.consecutiveCorrect + 1, now⟩ := by
  cases r with
  | mk sc tv mv cc lt =>
    simp only [repUpdate, if_pos, UserReputation.mk.injEq, and_true, true_and]
    split <;> omega

/-- Closed form of a minority `recordVote` update: the guarded 5-point
penalty is exactly truncated subtraction, i.e. `max 0 (score - 5)`. -/
theorem repUpdate_false (now : Nat) (r : UserReputation) :
    repUpdate false now r =
      ⟨r.score - 5, r.totalVotes + 1, r.majorityVotes, 0, now⟩ := by
  cases r with
  | mk sc tv mv cc lt =>
    simp only [repUpdate, Bool.false_eq_true, if_false, UserReputation.mk.injEq,
      and_true, true_and]
    split <;> omega

/-- Closed form of the multiplier: the `score = 0` special case agrees with
the general formula, and the result is `100 + score * 100 / 1000` clamped
to `[100, 200]` for every score. -/
theorem multiplierOfScore_eq (sc : Nat) :
    multiplierOfScore sc = max 100 (min 200 (100 + sc * 100 / 1000)) := by
  unfold multiplierOfScore
  by_cases h0 : sc = 0
  · subst h0
    simp
  · simp only [h0, if_false]
    split <;> omega

/-- The multiplier is monotone in the stored score. -/
theorem multiplierOfScore_mono {x y : Nat} (hxy : x ≤ y) :
    multiplierOfScore x ≤ multiplierOfScore y := by
  have hdiv : x * 100 / 1000 ≤ y * 100 / 1000 :=
    Nat.div_le_div_right (Nat.mul_le_mul_right 100 hxy)
  rw [multiplierOfScore_eq, multiplierOfScore_eq]
  omega

/-- C6: for every account and every call to `recordOutcome`
(ReputationSystem.recordVote, called by its owner): on a majority vote,
`totalVotes`, `majorityVotes` and `consecutiveCorrect` each increase by 1
and the score increases by `10 + consecutiveCorrect * 10` computed with the
incremented streak, capped at 1000; on a minority vote `totalVotes`
increases by 1, the streak resets to 0, and the score becomes
`max (0, score - 5)` (truncated subtraction below). -/
theorem recordVote_updates_reputation (s : Sys) (user : Addr) (now : Nat) :
    (recordVote s.rep.owner user true now s).map (fun s' => repOf s' user)
      = .ok ⟨min ((repOf s user).score + (10 + ((repOf s user).consecutiveCorrect + 1) * 10)) 1000,
             (repOf s user).totalVotes + 1, (repOf s user).majorityVotes + 1,
             (repOf s user).consecutiveCorrect + 1, now⟩
    ∧ (recordVote s.rep.owner user false now s).map (fun s' => repOf s' user)
      = .ok ⟨(repOf s user).score - 5, (repOf s user).totalVotes + 1,
             (repOf s user).majorityVotes, 0, now⟩ := by
  constructor
  · unfold recordVote
    rw [if_pos rfl]
    simp only [Except.map]
    rw [show repOf { s with
          rep := { s.rep with
                   reputations := aset s.rep.reputations user (repUpdate true now (repOf s user)) },
          events := s.events ++
            [Ev.ReputationUpdated user (repUpdate true now (repOf s user)).score
               (multiplierOfScore (repUpdate true now (repOf s user)).score),
             Ev.MajorityVoteRecorded user true] } user
        = aget UserReputation.zero (aset s.rep.reputations user (repUpdate true now (repOf s user))) user
      from rfl, aget_aset_self, repUpdate_true]
  · unfold recordVote
    rw [if_pos rfl]
    simp only [Except.map]
    rw [show repOf { s with
          rep := { s.rep with
                   reputations := aset s.rep.reputations user (repUpdate false now (repOf s user)) },
          events := s.events ++
            [Ev.ReputationUpdated user (repUpdate false now (repOf s user)).score
               (multiplierOfScore (repUpdate false now (repOf s user)).score),
             Ev.MajorityVoteRecorded user false] } user
        = aget UserReputation.zero (aset s.rep.reputations user (repUpdate false now (repOf s user))) user
      from rfl, aget_aset_self, repUpdate_false]

/-- C7: `votingMultiplier` (ReputationSystem.getVotingMultiplier) returns
`100 + floor(score * 100 / 1000)` clamped to `[100, 200]`, returns exactly
100 at score 0, and is non-decreasing in the score (over all scores, hence
over all reachable ones). -/
theorem votingMultiplier_clamped_monotone (s : Sys) (user : Addr)
    (x y : Nat) (hxy : x ≤ y) :
    getVotingMultiplier s user
      = max 100 (min 200 (100 + (repOf s user).score * 100 / 1000))
    ∧ ((repOf s user).score = 0 → getVotingMultiplier s user = 100)
    ∧ multiplierOfScore x ≤ multiplierOfScore y := by
  refine ⟨multiplierOfScore_eq _, ?_, multiplierOfScore_mono hxy⟩
  intro h0
  unfold getVotingMultiplier
  rw [h0]
  rfl

/-! ### Vote cost (C8) -/

/-- Successful-vote inversion: a vote that returns `.ok` stores a record
whose `tokensCost` is `voteCount² * UNIT` and increases the amount locked
on the DAO contract address by exactly that cost. -/
theorem vote_ok_cost {now : Nat} {sender : Addr} {pid : Nat} {ap : Bool}
    {n : Nat} {s s' : Sys} (h : vote now sender pid ap n s = .ok s') :
    (voteRecOf s' pid sender).tokensCost = n * n * UNIT
    ∧ lockedOf s' s.dao.daoAddr = lockedOf s s.dao.daoAddr + n * n * UNIT := by
  unfold vote at h
  dsimp only at h
  split at h
  case isFalse => cases h
  split at h
  case isFalse => cases h
  split at h
  case isFalse => cases h
  split at h
  case isTrue => cases h
  split at h
  case isFalse => cases h
  split at h
  case isFalse => cases h
  split at h
  case h_1 => cases h
  rename_i s1 hlock
  cases h
  obtain ⟨-, -, hlk, -, -⟩ := lockTokens_ok_inv hlock
  constructor
  · show (aget VoteRec.zero (aget Proposal.zero (aset s1.dao.proposals pid _) pid).votes sender).tokensCost = n * n * UNIT
    rw [aget_aset_self, aget_aset_self]
  · show aget 0 s1.tok.lockedTokens s.dao.daoAddr = aget 0 s.tok.lockedTokens s.dao.daoAddr + n * n * UNIT
    rw [hlk]
    exact aget_aset_self 0 s.tok.lockedTokens s.dao.daoAddr _

/-- C8: for every `n ≥ 1`, `previewVoteCost(n)` (calculateVoteCost) is
exactly `n² * UNIT`, and any vote with `rawVotes = n` that succeeds is
charged the same amount: the stored `tokensCost` is `n² * UNIT` and the
locked amount grows by `n² * UNIT`. -/
theorem previewVoteCost_quadratic (n : Nat) (h : 1 ≤ n) :
    calculateVoteCost n = n ^ 2 * UNIT
    ∧ ∀ (now : Nat) (sender : Addr) (pid : Nat) (ap : Bool) (s s' : Sys),
        vote now sender pid ap n s = .ok s' →
        (voteRecOf s' pid sender).tokensCost = n ^ 2 * UNIT
        ∧ lockedOf s' s.dao.daoAddr = lockedOf s s.dao.daoAddr + n ^ 2 * UNIT := by
  have hp : n ^ 2 = n * n := by ring
  refine ⟨by rw [calculateVoteCost, hp], ?_⟩
  intro now sender pid ap s s' hv
  rw [hp]
  exact vote_ok_cost hv

/-- C8 witness: the theorem at `n = 5` (with `1 ≤ 5` discharged), plus the
concrete examples of the claim: costs `1 · UNIT`, `25 · UNIT`, `100 · UNIT`
for 1, 5 and 10 votes. -/
theorem previewVoteCost_quadratic_witness :
    (1 ≤ 5 ∧ calculateVoteCost 5 = 5 ^ 2 * UNIT)
    ∧ calculateVoteCost 1 = 1 * UNIT
    ∧ calculateVoteCost 5 = 25 * UNIT
    ∧ calculateVoteCost 10 = 100 * UNIT :=
  ⟨⟨by decide, (previewVoteCost_quadratic 5 (by decide)).1⟩,
   by decide, by decide, by decide⟩

/-! ### Guard behaviour of createProposal, vote and executeProposal -/

/-- C3 (amended): createProposal fails with the threshold error exactly
when the proposer's FULL token balance (`balanceOf`, locked tokens
included) is below PROPOSAL_THRESHOLD, and succeeds otherwise; the source
reads `balanceOf`, not `availableBalance`, so locked tokens do count
toward the proposal threshold. -/
theorem createProposal_threshold_full_balance (s : Sys) (now : Nat)
    (sender : Addr) (pt : PType) (t d u c : String) :
    (createProposal now sender pt t d u c s
        = .error "Insufficient tokens to create proposal"
      ↔ balanceOf s sender < PROPOSAL_THRESHOLD)
    ∧ ((createProposal now sender pt t d u c s).toOption.isSome = true
      ↔ PROPOSAL_THRESHOLD ≤ balanceOf s sender) := by
  unfold createProposal
  dsimp only
  split
  · rename_i hbal
    constructor
    · constructor
      · intro hcontra
        cases hcontra
      · intro hlt
        exact absurd hlt (by omega)
    · simp only [Except.toOption, Option.isSome_some]
      exact ⟨fun _ => hbal, fun _ => trivial⟩
  · rename_i hbal
    constructor
    · exact ⟨fun _ => by omega, fun _ => rfl⟩
    · simp only [Except.toOption, Option.isSome_none]
      constructor
      · intro hcontra
        cases hcontra
      · intro hle
        exact absurd hle (by omega)

/-- C3 witness: the iff pair instantiated at a concrete proposer (account
2, balance 0) in a concrete state. -/
theorem createProposal_threshold_full_balance_witness :
    (createProposal 0 2 PType.APPROVE "t" "t" "t" "t" fullyLockedProposer
        = .error "Insufficient tokens to create proposal"
      ↔ balanceOf fullyLockedProposer 2 < PROPOSAL_THRESHOLD)
    ∧ ((createProposal 0 2 PType.APPROVE "t" "t" "t" "t" fullyLockedProposer).toOption.isSome = true
      ↔ PROPOSAL_THRESHOLD ≤ balanceOf fullyLockedProposer 2) :=
  createProposal_threshold_full_balance fullyLockedProposer 0 2 .APPROVE "t" "t" "t" "t"

/-- C3 counterexample: account 1 has balance 1000 tokens of which all 1000
are locked, so its available balance (0) is below PROPOSAL_THRESHOLD, yet
createProposal succeeds — refuting the claim that the threshold is checked
against the available balance. -/
theorem createProposal_ignores_locked_counterexample :
    availableBalance fullyLockedProposer 1 = 0
    ∧ 0 < PROPOSAL_THRESHOLD
    ∧ (createProposal 0 1 PType.APPROVE "t" "t" "t" "t" fullyLockedProposer).toOption.isSome
        = true := by
  refine ⟨by decide, by decide, by decide⟩

/-- C4 (amended): once the proposal-status, deadline, double-vote and
positive-count guards pass, vote fails with InsufficientTokensForVote
exactly when `tokensCost = rawVotes² * UNIT` exceeds the voter's FULL
token balance (`balanceOf`, locked tokens included); the source reads
`balanceOf`, not `availableBalance`, so locked tokens do count toward
funding this check. -/
theorem vote_cost_check_full_balance (s : Sys) (now : Nat) (sender : Addr)
    (pid : Nat) (ap : Bool) (n : Nat)
    (h1 : 0 < pid) (h2 : pid ≤ s.dao.proposalCount)
    (h3 : (proposalOf s pid).status = .Active)
    (h4 : now < (proposalOf s pid).votingDeadline)
    (h5 : (voteRecOf s pid sender).hasVoted = false)
    (h6 : 0 < n) :
    vote now sender pid ap n s = .error "Insufficient tokens for vote cost"
      ↔ balanceOf s sender < n * n * UNIT := by
  unfold vote
  dsimp only
  rw [if_pos ⟨h1, h2⟩, if_pos h3, if_pos h4,
    if_neg (by rw [show (aget VoteRec.zero (proposalOf s pid).votes sender) = voteRecOf s pid sender from rfl, h5]; simp),
    if_pos h6]
  split
  · rename_i hbal
    constructor
    · intro hcontra
      split at hcontra
      · cases hcontra
        rename_i heq
        unfold lockTokens at heq
        split at heq
        · cases heq
        · injection heq with hstr
          exact absurd hstr (by decide)
      · cases hcontra
    · intro hlt
      exact absurd hlt (by omega)
  · rename_i hbal
    exact ⟨fun _ => by omega, fun _ => rfl⟩

/-- C4 witness: the iff instantiated where account 1 holds 3 unlocked
tokens and casts 2 votes (cost 4 tokens): the check fires. -/
theorem vote_cost_check_full_balance_witness :
    (vote 0 1 1 true 2 poorVoter = .error "Insufficient tokens for vote cost"
      ↔ balanceOf poorVoter 1 < 2 * 2 * UNIT) :=
  vote_cost_check_full_balance poorVoter 0 1 1 true 2 (by decide) (by decide)
    (by decide) (by decide) (by decide) (by decide)

/-- C4 counterexample: account 1 holds 25 tokens, all locked, so its
available balance (0) is below the 5-vote cost of 25 tokens — yet the vote
does NOT fail with InsufficientTokensForVote (the full balance covers the
cost; the failure that does occur is the misdirected lock reverting with
"Insufficient unlocked balance" on the DAO's own empty balance). -/
theorem vote_cost_check_counterexample :
    availableBalance fullyLockedVoter 1 = 0
    ∧ availableBalance fullyLockedVoter 1 < 5 * 5 * UNIT
    ∧ vote 0 1 1 true 5 fullyLockedVoter ≠ .error "Insufficient tokens for vote cost"
    ∧ vote 0 1 1 true 5 fullyLockedVoter = .error "Insufficient unlocked balance" := by
  refine ⟨by decide, by decide, by decide, by decide⟩

/-- C5: executeProposal on an already-resolved proposal (status Executed,
Rejected or Expired) always fails, and a revert leaves every ledger
unchanged — but the error it fails with is "Proposal not active"
(ProposalNotActive), NOT "Proposal already executed" (AlreadyExecuted):
the `status == Active` guard precedes the `!executed` guard in the source,
so the AlreadyExecuted error is unreachable for a resolved proposal.  The
repository's own test ("Should not execute twice") expects
"Proposal already executed" here, so the code contradicts its own test
suite. -/
theorem execute_resolved_fails_not_active (s : Sys) (now pid : Nat)
    (hid : 0 < pid ∧ pid ≤ s.dao.proposalCount)
    (h : (proposalOf s pid).status = .Executed
       ∨ (proposalOf s pid).status = .Rejected
       ∨ (proposalOf s pid).status = .Expired) :
    executeProposal now pid s = .error "Proposal not active" := by
  have hne : ¬ (proposalOf s pid).status = .Active := by
    rcases h with h | h | h <;> rw [h] <;> intro hc <;> cases hc
  unfold executeProposal
  dsimp only
  rw [if_pos hid, if_neg hne]

/-- C5 witness: the theorem applied to a concrete resolved (Expired)
proposal, and the same divergence exhibited on a full concrete run —
create, resolve at the deadline, then call executeProposal again: the
second call reverts with "Proposal not active". -/
theorem execute_resolved_fails_not_active_witness :
    ((0 < 1 ∧ 1 ≤ resolvedState.dao.proposalCount)
      ∧ executeProposal 999999 1 resolvedState = .error "Proposal not active")
    ∧ (resolveNoVotesChain.bind (executeProposal 604801 1)
        = .error "Proposal not active") :=
  ⟨⟨⟨by decide, by decide⟩,
    execute_resolved_fails_not_active resolvedState 999999 1 ⟨by decide, by decide⟩
      (Or.inr (Or.inr (by decide)))⟩,
   by decide⟩

/-- C2: the spec scenario — account 1 with 1000 available tokens and
multiplier 100 casts 5 votes on an active proposal before the deadline —
does NOT succeed in the code: the cost check passes (25 tokens of 1000),
but `governanceToken.lockTokens(25 * UNIT)` runs with the DAO contract as
`msg.sender`, and the freshly deployed DAO holds zero tokens, so the whole
vote reverts with "Insufficient unlocked balance".  Even when the DAO
contract address is funded so that the lock succeeds, the 25 tokens are
locked on the DAO's own balance: the voter's locked amount stays 0 and its
available balance stays 1000 instead of 975 (the repository's own test
"Should lock tokens when voting" expects the voter's lockedTokens to equal
the cost). -/
theorem vote_scenario_locks_dao_not_voter :
    vote 0 1 1 true 5 voteScenarioState = .error "Insufficient unlocked balance"
    ∧ (vote 0 1 1 true 5 voteScenarioFunded).toOption.map
        (fun s' => ((voteRecOf s' 1 1).tokensCost, (voteRecOf s' 1 1).weightedPower,
          lockedOf s' 1, lockedOf s' 100, availableBalance s' 1))
      = some (25 * UNIT, 5, 0, 25 * UNIT, 1000 * UNIT) := by
  refine ⟨by decide, by decide⟩

/-- C9 (amended): once an account has a VoteRecord on a proposal
(`hasVoted = true`), no further vote call by that account on that proposal
can ever succeed — so at most one VoteRecord per (proposal, account) pair
ever exists and a failed call changes no state — and the error is exactly
"Already voted" (AlreadyVoted) whenever the proposal is still Active with
the deadline not yet passed; a second vote attempted after the deadline or
on a resolved proposal is rejected by the earlier status/deadline guards
with their own errors instead. -/
theorem no_double_vote (s : Sys) (now : Nat) (a : Addr) (pid : Nat)
    (ap : Bool) (n : Nat) (h : (voteRecOf s pid a).hasVoted = true) :
    (∀ s', vote now a pid ap n s ≠ .ok s')
    ∧ (0 < pid ∧ pid ≤ s.dao.proposalCount →
        (proposalOf s pid).status = .Active →
        now < (proposalOf s pid).votingDeadline →
        vote now a pid ap n s = .error "Already voted") := by
  constructor
  · intro s' hcontra
    unfold vote at hcontra
    dsimp only at hcontra
    split at hcontra
    case isFalse => cases hcontra
    split at hcontra
    case isFalse => cases hcontra
    split at hcontra
    case isFalse => cases hcontra
    split at hcontra
    case isTrue => cases hcontra
    case isFalse hny =>
      exact hny h
  · intro hid hact hdl
    unfold vote
    dsimp only
    rw [if_pos hid, if_pos hact, if_pos hdl,
      if_pos (show (aget VoteRec.zero (proposalOf s pid).votes a).hasVoted = true from h)]

/-- C9 witness: the theorem applied to a concrete state in which account 2
has already voted on the active proposal 1. -/
theorem no_double_vote_witness :
    (voteRecOf alreadyVotedState 1 2).hasVoted = true
    ∧ ((∀ s', vote 100 2 1 false 3 alreadyVotedState ≠ .ok s')
      ∧ (0 < 1 ∧ 1 ≤ alreadyVotedState.dao.proposalCount →
          (proposalOf alreadyVotedState 1).status = .Active →
          100 < (proposalOf alreadyVotedState 1).votingDeadline →
          vote 100 2 1 false 3 alreadyVotedState = .error "Already voted")) :=
  ⟨by decide, no_double_vote alreadyVotedState 100 2 1 false 3 (by decide)⟩

/-- C9 counterexample: a concrete run refuting "any second vote call ...
fails with AlreadyVoted": account 2 votes successfully at time 0, then
votes again at the deadline (604800) — the second call does fail and
changes nothing, but with "Voting period ended", not "Already voted",
because the deadline guard precedes the double-vote guard. -/
theorem second_vote_after_deadline_error :
    (doubleVoteMid.toOption.map (fun s2 => (voteRecOf s2 1 2).hasVoted) = some true)
    ∧ doubleVoteMid.bind (vote 604800 2 1 false 3) = .error "Voting period ended"
    ∧ doubleVoteMid.bind (vote 604800 2 1 false 3) ≠ .error "Already voted" := by
  refine ⟨by decide, by decide, by decide⟩

/-! ### Resolution branches of executeProposal (C1, C10) -/

/-- C1 (amended): the per-voter unlock and reputation pass of
executeProposal runs in EVERY terminal branch, including Expired — the
loop sits after the quorum `if`/`else` in the source (lines 227–237).  If
executeProposal succeeds and resolves the proposal as Expired, then every
voter occurring once in the voter list still has its `tokensCost` unlocked
(TokensUnlocked event, issued against the DAO contract address) and still
receives a `recordVote` reputation update with flag
`approve == (approveVotes > rejectVotes)`. -/
theorem expired_branch_runs_voter_pass (s s' : Sys) (now pid : Nat) (a : Addr)
    (hok : executeProposal now pid s = .ok s')
    (hexp : (proposalOf s' pid).status = .Expired)
    (hcnt : (proposalOf s pid).voters.count a = 1) :
    repOf s' a = repUpdate ((voteRecOf s pid a).approve ==
        decide ((proposalOf s pid).approveVotes > (proposalOf s pid).rejectVotes))
        now (repOf s a)
    ∧ Ev.TokensUnlocked s.dao.daoAddr (voteRecOf s pid a).tokensCost ∈ s'.events
    ∧ Ev.MajorityVoteRecorded a ((voteRecOf s pid a).approve ==
        decide ((proposalOf s pid).approveVotes > (proposalOf s pid).rejectVotes))
        ∈ s'.events := by
  unfold executeProposal at hok
  dsimp only at hok
  split at hok
  case isFalse => cases hok
  split at hok
  case isFalse => cases hok
  split at hok
  case isFalse => cases hok
  split at hok
  case isTrue => cases hok
  split at hok
  · split at hok
    · cases hok
    · have hst := (execFinish_ok hok).1
      rw [hexp] at hst
      split at hst
      · cases hst
      · cases hst
  · exact (execFinish_ok hok).2.2 a hcnt

/-- C10: when executeProposal succeeds on a proposal whose weighted tally
is an exact tie with a positive total (so the quorum was met), the
proposal resolves to Executed (approval percentage exactly 50 meets the
`>= 50` threshold), yet the reputation pass treats the AGAINST side as the
majority: `majorityApproved = approveVotes > rejectVotes` is false at a
tie, so `recordVote` is called with `votedWithMajority = true` exactly for
the voters whose `approve` is false. -/
theorem tie_executes_but_rewards_against_voters (s s' : Sys) (now pid : Nat)
    (a : Addr)
    (htie : (proposalOf s pid).approveVotes = (proposalOf s pid).rejectVotes)
    (hpos : 0 < (proposalOf s pid).approveVotes)
    (hq : s.tok.totalSupply * QUORUM_PERCENTAGE / 100
      ≤ (proposalOf s pid).approveVotes + (proposalOf s pid).rejectVotes)
    (hok : executeProposal now pid s = .ok s')
    (hcnt : (proposalOf s pid).voters.count a = 1) :
    (proposalOf s' pid).status = .Executed
    ∧ repOf s' a = repUpdate (!(voteRecOf s pid a).approve) now (repOf s a)
    ∧ Ev.MajorityVoteRecorded a (!(voteRecOf s pid a).approve) ∈ s'.events := by
  unfold executeProposal at hok
  dsimp only at hok
  split at hok
  case isFalse => cases hok
  split at hok
  case isFalse => cases hok
  split at hok
  case isFalse => cases hok
  split at hok
  case isTrue => cases hok
  rw [if_neg (by omega :
    ¬ (proposalOf s pid).approveVotes + (proposalOf s pid).rejectVotes = 0)] at hok
  have happ : (proposalOf s pid).approveVotes * 100 /
      ((proposalOf s pid).approveVotes + (proposalOf s pid).rejectVotes) = 50 := by
    rw [← htie]
    have hform : (proposalOf s pid).approveVotes * 100 =
        50 * ((proposalOf s pid).approveVotes + (proposalOf s pid).approveVotes) := by
      ring
    rw [hform, Nat.mul_div_cancel _ (by omega)]
  rw [happ] at hok
  norm_num [APPROVAL_THRESHOLD] at hok
  have hfin := execFinish_ok hok
  have hmaj : decide ((proposalOf s pid).approveVotes > (proposalOf s pid).rejectVotes)
      = false := by
    simp [htie]
  have hbeq : ∀ b : Bool, (b == false) = !b := by decide
  refine ⟨hfin.1, ?_, ?_⟩
  · have hrep := (hfin.2.2 a hcnt).1
    rw [hmaj, hbeq] at hrep
    exact hrep
  · have hmem := (hfin.2.2 a hcnt).2.2
    rw [hmaj, hbeq] at hmem
    exact hmem

/-- C1 counterexample: a full concrete run (create at time 0, one approve
vote, execute at the 7-day deadline with the quorum unmet) resolves the
proposal as Expired, yet the voter's reputation HAS been updated by
`recordVote` (score 20, totalVotes 1, with a MajorityVoteRecorded event)
and the locked cost HAS been unlocked (the DAO address's locked balance is
back to 0, with a TokensUnlocked event) — refuting the claim that the
per-voter pass never runs in the Expired branch. -/
theorem expired_run_unlocks_and_records_counterexample :
    expiredRunChain.toOption.map
      (fun s3 => ((proposalOf s3 1).status, repOf s3 1, lockedOf s3 100,
        s3.events.contains (Ev.MajorityVoteRecorded 1 true),
        s3.events.contains (Ev.TokensUnlocked 100 UNIT)))
      = some (.Expired, ⟨20, 1, 1, 1, 604800⟩, 0, true, true) := by
  decide

/-- C1 witness: the amended theorem applied to a concrete state (one
approve vote of cost 3, quorum 20 unmet) whose execution resolves Expired. -/
theorem expired_branch_runs_voter_pass_witness :
    ((executeProposal 5 1 smallExpiredState
        = .ok (exOk (executeProposal 5 1 smallExpiredState))
      ∧ (proposalOf (exOk (executeProposal 5 1 smallExpiredState)) 1).status = .Expired
      ∧ (proposalOf smallExpiredState 1).voters.count 1 = 1)
    ∧ (repOf (exOk (executeProposal 5 1 smallExpiredState)) 1 =
        repUpdate ((voteRecOf smallExpiredState 1 1).approve ==
          decide ((proposalOf smallExpiredState 1).approveVotes >
            (proposalOf smallExpiredState 1).rejectVotes))
          5 (repOf smallExpiredState 1)
      ∧ Ev.TokensUnlocked smallExpiredState.dao.daoAddr
          (voteRecOf smallExpiredState 1 1).tokensCost
          ∈ (exOk (executeProposal 5 1 smallExpiredState)).events
      ∧ Ev.MajorityVoteRecorded 1 ((voteRecOf smallExpiredState 1 1).approve ==
          decide ((proposalOf smallExpiredState 1).approveVotes >
            (proposalOf smallExpiredState 1).rejectVotes))
          ∈ (exOk (executeProposal 5 1 smallExpiredState)).events)) :=
  ⟨⟨by decide, by decide, by decide⟩,
   expired_branch_runs_voter_pass smallExpiredState
     (exOk (executeProposal 5 1 smallExpiredState)) 5 1 1
     (by decide) (by decide) (by decide)⟩

/-- C10 witness: the theorem applied to a concrete exact tie (1 approve
vs 1 reject, quorum 2 met) — the proposal executes and the against-voter
(account 2) is the one credited with a majority vote. -/
theorem tie_executes_but_rewards_against_voters_witness :
    (((proposalOf tieState 1).approveVotes = (proposalOf tieState 1).rejectVotes
      ∧ 0 < (proposalOf tieState 1).approveVotes
      ∧ tieState.tok.totalSupply * QUORUM_PERCENTAGE / 100
          ≤ (proposalOf tieState 1).approveVotes + (proposalOf tieState 1).rejectVotes
      ∧ executeProposal 5 1 tieState = .ok (exOk (executeProposal 5 1 tieState))
      ∧ (proposalOf tieState 1).voters.count 2 = 1)
    ∧ ((proposalOf (exOk (executeProposal 5 1 tieState)) 1).status = .Executed
      ∧ repOf (exOk (executeProposal 5 1 tieState)) 2 =
          repUpdate (!(voteRecOf tieState 1 2).approve) 5 (repOf tieState 2)
      ∧ Ev.MajorityVoteRecorded 2 (!(voteRecOf tieState 1 2).approve)
          ∈ (exOk (executeProposal 5 1 tieState)).events)) :=
  ⟨⟨by decide, by decide, by decide, by decide, by decide⟩,
   tie_executes_but_rewards_against_voters tieState
     (exOk (executeProposal 5 1 tieState)) 5 1 2
     (by decide) (by decide) (by decide) (by decide) (by decide)⟩

/-- C7 witness: the theorem applied to a concrete state in which account 1
has score 400 (multiplier 140), with the monotonicity hypothesis
discharged at scores 3 ≤ 500. -/
theorem votingMultiplier_clamped_monotone_witness :
    (3 ≤ 500)
    ∧ (getVotingMultiplier (mkSys [] [] 0 [] 0 [(1, ⟨400, 4, 4, 4, 0⟩)]) 1
        = max 100 (min 200 (100 +
            (repOf (mkSys [] [] 0 [] 0 [(1, ⟨400, 4, 4, 4, 0⟩)]) 1).score * 100 / 1000))
      ∧ ((repOf (mkSys [] [] 0 [] 0 [(1, ⟨400, 4, 4, 4, 0⟩)]) 1).score = 0 →
          getVotingMultiplier (mkSys [] [] 0 [] 0 [(1, ⟨400, 4, 4, 4, 0⟩)]) 1 = 100)
      ∧ multiplierOfScore 3 ≤ multiplierOfScore 500) :=
  ⟨by decide,
   votingMultiplier_clamped_monotone (mkSys [] [] 0 [] 0 [(1, ⟨400, 4, 4, 4, 0⟩)]) 1
     3 500 (by decide)⟩
